import Mathlib

/-
  Verification development for the "recon" news-syndication backend.

  Shallow embedding of the Distribution Engine of the repository:
  * app/utils.py        -- generate_variation_with_gpt (content variation generator)
  * app/views.py        -- MasterNewsPostPublishAPIView.post (distribution dispatcher),
                           MasterCategoryMappingView.post / .patch (category mapping operations)
  * app/models.py       -- MasterNewsPost, NewsDistribution, MasterCategoryMapping, PortalPrompt
  * user/models.py      -- PortalUserMapping

  Python values that may be None are embedded as Option; Python `x or y`
  string truthiness is embedded explicitly.  Database tables are lists of
  records; queryset filter/first/update are list operations.  Network and
  rewrite-service calls are inputs of the model (an environment assigns each
  portal the outcome its HTTP call would produce), so the dispatcher itself
  stays a pure function of its inputs.
-/

set_option linter.unusedVariables false

namespace Recon

/-- Python whitespace characters relevant to str.strip and the regexes in
django.utils.text.slugify (ASCII fragment). -/
def isPySpace (c : Char) : Bool :=
  c = ' ' || c = '\t' || c = '\n' || c = '\r' || c = '\x0b' || c = '\x0c'

/-- Characters kept by the first substitution of django.utils.text.slugify:
the pattern [^\w\s-] removes everything that is not a word character,
whitespace, or a hyphen (ASCII fragment, applied after lowercasing). -/
def isSlugKeep (c : Char) : Bool :=
  c.isAlphanum || c = '_' || isPySpace c || c = '-'

/-- Second substitution of django.utils.text.slugify: every run of hyphens
and whitespace collapses to a single hyphen.  The boolean flag records
whether the previous character belonged to such a run. -/
def slugCollapse : Bool → List Char → List Char
  | _, [] => []
  | prev, c :: cs =>
    if c = '-' || isPySpace c then
      if prev then slugCollapse true cs else '-' :: slugCollapse true cs
    else
      c :: slugCollapse false cs

/-- Final step of django.utils.text.slugify: strip leading and trailing
hyphens and underscores. -/
def stripDashUnderscore (l : List Char) : List Char :=
  ((l.dropWhile fun c => c = '-' || c = '_').reverse.dropWhile fun c => c = '-' || c = '_').reverse

/-- django.utils.text.slugify (allow_unicode=False) on ASCII text: lowercase,
drop characters outside [\w\s-], collapse [-\s]+ runs to "-", strip "-_". -/
def slugify (s : String) : String :=
  String.mk (stripDashUnderscore (slugCollapse false ((s.data.map Char.toLower).filter isSlugKeep)))

/-- Python str.strip() (ASCII whitespace fragment). -/
def pyStrip (s : String) : String :=
  String.mk (((s.data.dropWhile isPySpace).reverse.dropWhile isPySpace).reverse)

/-- Python `x or y` where x is an optional string: None and the empty string
are falsy, so they yield y; any other string is returned unchanged. -/
def pyOrStr (x : Option String) (y : String) : String :=
  match x with
  | some s => if s = "" then y else s
  | none => y

/-- Python `x or y` where x is an optional non-negative integer: None and 0
are falsy. -/
def pyOrNat (x : Option Nat) (y : Nat) : Nat :=
  match x with
  | some n => if n = 0 then y else n
  | none => y

/-- The five-field content variant (title, short_description, description,
meta_title, slug) produced by the content variation generator and by the
passthrough branch of the dispatcher. -/
structure Variant where
  title : String
  short_description : String
  description : String
  meta_title : String
  slug : String
deriving DecidableEq

/-- Python dict.get(k, default) over a decoded JSON object embedded as an
association list with string values. -/
def dictGet (d : List (String × String)) (k : String) (dflt : String) : String :=
  match d.find? (fun kv => kv.1 == k) with
  | some kv => kv.2
  | none => dflt

/-- The regex search re.search(r"\x7b.*\x7d", content, re.DOTALL) of
app/utils.py: with a greedy dot-all pattern the match, when it exists, runs
from the first opening brace to the last closing brace of the text. -/
def extractBraces (s : String) : Option String :=
  let cs := s.data
  match cs.findIdx? (· = '\x7b') with
  | none => none
  | some i =>
    match cs.reverse.findIdx? (· = '\x7d') with
    | none => none
    | some jr =>
      let j := cs.length - 1 - jr
      if i < j then some (String.mk ((cs.take (j + 1)).drop i)) else none

/-- Outcome of the call to the external rewrite service
(client.responses.create in app/utils.py): either the call raised, or it
returned a response whose output_text is the given string. -/
inductive GptOutcome where
  | raised
  | output (text : String)

/-- The fallback tuple built in the outer except-branch of
generate_variation_with_gpt (app/utils.py lines 92-98):
(title, short_desc, desc, meta_title or title, slug or slugify(meta_title or title)). -/
def gptFallback (title short_desc desc : String) (meta_title slug : Option String) : Variant :=
  ⟨title, short_desc, desc, pyOrStr meta_title title,
    pyOrStr slug (slugify (pyOrStr meta_title title))⟩

/-- The tuple built from a successfully decoded JSON object
(app/utils.py lines 81-87): each field defaults independently via dict.get. -/
def variantOfDict (data : List (String × String)) (title short_desc desc : String)
    (meta_title slug : Option String) : Variant :=
  ⟨dictGet data "title" title,
    dictGet data "short_description" short_desc,
    dictGet data "description" desc,
    dictGet data "meta_title" (pyOrStr meta_title title),
    dictGet data "slug" (pyOrStr slug (slugify (pyOrStr meta_title title)))⟩

/-- generate_variation_with_gpt (app/utils.py lines 21-98).  `loads` stands
for json.loads restricted to flat objects with string values, given as a
parameter of the model; `outcome` is the rewrite-service call's outcome.
Control flow of the source: strip the response text, try a strict parse,
else search for the brace-delimited substring and parse that; any failure
(including an exception raised by the service call, a missing match, or a
decode error inside the fallback branch) lands in the outer except-branch,
which returns the passthrough tuple.  The function is total: no exception
ever propagates. -/
def generate_variation_with_gpt (loads : String → Option (List (String × String)))
    (outcome : GptOutcome) (title short_desc desc prompt_text : String)
    (meta_title slug : Option String) (portal_name : Option String) : Variant :=
  match outcome with
  | .raised => gptFallback title short_desc desc meta_title slug
  | .output t =>
    let content := pyStrip t
    match loads content with
    | some data => variantOfDict data title short_desc desc meta_title slug
    | none =>
      match extractBraces content with
      | some sub =>
        match loads sub with
        | some data => variantOfDict data title short_desc desc meta_title slug
        | none => gptFallback title short_desc desc meta_title slug
      | none => gptFallback title short_desc desc meta_title slug

/-- MasterNewsPost (app/models.py lines 93-120).  The fields meta_title and
slug are read by the publish view (app/views.py lines 721-722 and 733-739)
and appear in the spec's data model as variant inputs; their declarations
are not in the models.py snapshot, so they are modelled from the spec as
optional text fields.  Dates are carried as ISO-8601 strings. -/
structure NewsPost where
  id : Nat
  created_by : Nat
  title : String
  short_description : String
  content : String
  post_image : Option String := none
  is_active : Option Bool := none
  latest_news : Option Bool := none
  upcoming_event : Option Bool := none
  Head_Lines : Option Bool := none
  articles : Option Bool := none
  trending : Option Bool := none
  BreakingNews : Option Bool := none
  Event : Option Bool := none
  Event_date : Option String := none
  Event_end_date : Option String := none
  schedule_date : Option String := none
  post_tag : Option String := none
  counter : Option Nat := none
  meta_title : Option String := none
  slug : Option String := none
deriving DecidableEq

/-- The passthrough (use_default_content) branch of the publish view
(app/views.py lines 717-722). -/
def passthroughVariant (p : NewsPost) : Variant :=
  ⟨p.title, p.short_description, p.content,
    pyOrStr p.meta_title p.title,
    pyOrStr p.slug (slugify (pyOrStr p.meta_title p.title))⟩

/-- Portal (app/models.py lines 29-37); credential fields are opaque to the
dispatcher and omitted. -/
structure Portal where
  id : Nat
  name : String
  base_url : String
deriving DecidableEq

/-- PortalCategory (app/models.py lines 40-50). -/
structure PortalCategory where
  id : Nat
  portal : Nat
  name : String
  external_id : String
deriving DecidableEq

/-- MasterCategoryMapping (app/models.py lines 62-72).  The is_default flag
is read and written by app/views.py (mapping creation, patch, and the
default-mapping branch of publish) and appears in the spec's data model;
its declaration is not in the models.py snapshot, so it is modelled from
the spec as a boolean defaulting to false. -/
structure Mapping where
  id : Nat
  master_category : Nat
  portal_category : Nat
  use_default_content : Bool := false
  is_default : Bool := false
deriving DecidableEq

/-- PortalPrompt rows as used by app/views.py lines 724-727: an optional
portal (None means the global fallback prompt), an is_active flag and the
prompt text. -/
structure PortalPromptRow where
  portal : Option Nat
  is_active : Bool
  prompt_text : String
deriving DecidableEq

/-- PortalUserMapping (user/models.py lines 9-37). -/
structure PortalUserRow where
  user : Nat
  portal : Nat
  portal_user_id : Option String
  portal_username : Option String
  status : String
deriving DecidableEq

/-- UserCategoryGroupAssignment rows as filtered by app/views.py
lines 655-657 (user plus an optional master category or group). -/
structure AssignmentRow where
  user : Nat
  master_category : Option Nat
  group : Option Nat
deriving DecidableEq

/-- NewsDistribution (app/models.py lines 126-163).  The fields
ai_meta_title and ai_slug are written by the publish view's upsert
(app/views.py lines 802-803) and appear in the spec's ledger record; their
declarations are not in the models.py snapshot, so they are modelled from
the spec as optional text fields. -/
structure DistRecord where
  news_post : Nat
  portal : Nat
  portal_category : Option Nat
  master_category : Option Nat
  status : String
  response_message : Option String
  ai_title : Option String
  ai_short_description : Option String
  ai_content : Option String
  ai_meta_title : Option String
  ai_slug : Option String
  retry_count : Nat
  sent_at : String
deriving DecidableEq

/-- Outcome of the outbound HTTP publish call
(requests.post in app/views.py lines 783-789): either a response with a
status code and body text, or a raised exception with a message. -/
inductive NetOutcome where
  | resp (code : Nat) (text : String)
  | exc (msg : String)

/-- Classification of app/views.py line 785: a call counts as success
exactly when the call returned and its status code is 200 or 201. -/
def isSuccessOutcome : NetOutcome → Bool
  | .resp code _ => code == 200 || code == 201
  | .exc _ => false

/-- Response text stored for an outcome (app/views.py lines 786 and 789). -/
def outcomeText : NetOutcome → String
  | .resp _ text => text
  | .exc msg => msg

/-- Per-portal result entry appended to the publish response
(app/views.py lines 807-812 and the skip branches). -/
structure PortalResult where
  portal : String
  category : String
  success : Bool
  response : String
deriving DecidableEq

/-- The outbound publish payload (app/views.py lines 756-779). -/
structure Payload where
  post_cat : String
  post_title : String
  post_short_des : String
  post_des : String
  meta_title : String
  slug : String
  post_tag : String
  author : Option String
  Event_date : String
  Eventend_date : String
  schedule_date : String
  is_active : Nat
  Event : Nat
  Head_Lines : Nat
  articles : Nat
  trending : Nat
  BreakingNews : Nat
  post_status : Nat
deriving DecidableEq

/-- One network send performed by the dispatcher: the target URL, the form
payload, and the optional image file (app/views.py lines 780-784). -/
structure SentRequest where
  url : String
  payload : Payload
  image : Option String
deriving DecidableEq

/-- Environment of one publish invocation: the acting user, the identity and
prompt tables, the outcome each portal's HTTP call would produce, the
outcome each portal's rewrite-service call would produce, the json.loads
model, and the current date and datetime (timezone.now). -/
structure Env where
  userId : Nat
  identities : List PortalUserRow
  prompts : List PortalPromptRow
  net : Nat → NetOutcome
  gpt : Nat → GptOutcome
  loads : String → Option (List (String × String))
  today : String
  now : String

/-- A resolved publish target: a mapping row joined to its portal category
and portal (the select_related join of app/views.py lines 685-687). -/
structure Target where
  mapping : Mapping
  pcat : PortalCategory
  portal : Portal
deriving DecidableEq

/-- Flag coercion of app/views.py lines 772-777:
int(bool(x)) if x is not None else 0. -/
def boolFlag : Option Bool → Nat
  | some true => 1
  | some false => 0
  | none => 0

/-- Prompt resolution of app/views.py lines 724-732: first active prompt of
the portal, else the first active global (portal-null) prompt, else a
hard-coded generic instruction. -/
def promptFor (env : Env) (portal : Portal) : String :=
  match env.prompts.find? (fun pp => pp.portal == some portal.id && pp.is_active) with
  | some pp => pp.prompt_text
  | none =>
    match env.prompts.find? (fun pp => pp.portal == none && pp.is_active) with
    | some pp => pp.prompt_text
    | none => "Rewrite the content slightly for clarity and engagement."

/-- Identity resolution of app/views.py lines 744-746: the first
PortalUserMapping row for (user, portal) with status MATCHED. -/
def identityFor (env : Env) (portal : Portal) : Option PortalUserRow :=
  env.identities.find? (fun pu =>
    pu.user == env.userId && pu.portal == portal.id && pu.status == "MATCHED")

/-- The outbound payload of app/views.py lines 756-779 built from the post,
the chosen portal category, the resolved portal user and the generated
variant.  The post's own is_active field is not read: the wire is_active
comes from latest_news. -/
def buildPayload (env : Env) (post : NewsPost) (pcat : PortalCategory)
    (pu : PortalUserRow) (v : Variant) : Payload :=
  { post_cat := pcat.external_id
    post_title := v.title
    post_short_des := v.short_description
    post_des := v.description
    meta_title := v.meta_title
    slug := v.slug
    post_tag := pyOrStr post.post_tag ""
    author := pu.portal_user_id
    Event_date := (post.Event_date).getD env.today
    Eventend_date := (post.Event_end_date).getD env.today
    schedule_date := (post.schedule_date).getD env.now
    is_active := boolFlag post.latest_news
    Event := boolFlag post.upcoming_event
    Head_Lines := boolFlag post.Head_Lines
    articles := boolFlag post.articles
    trending := boolFlag post.trending
    BreakingNews := boolFlag post.BreakingNews
    post_status := pyOrNat post.counter 0 }

/-- The defaults dictionary of the ledger upsert
(app/views.py lines 794-804). -/
structure UpsertDefaults where
  portal_category : Option Nat
  master_category : Option Nat
  status : String
  response_message : String
  ai_title : String
  ai_short_description : String
  ai_content : String
  ai_meta_title : String
  ai_slug : String
deriving DecidableEq

/-- Overwriting an existing ledger row with the upsert defaults: every field
named in the defaults dictionary is replaced; retry_count and sent_at are
not in the dictionary and keep their stored values. -/
def applyDefaults (r : DistRecord) (d : UpsertDefaults) : DistRecord :=
  { r with
    portal_category := d.portal_category
    master_category := d.master_category
    status := d.status
    response_message := some d.response_message
    ai_title := some d.ai_title
    ai_short_description := some d.ai_short_description
    ai_content := some d.ai_content
    ai_meta_title := some d.ai_meta_title
    ai_slug := some d.ai_slug }

/-- A freshly inserted ledger row: the lookup keys, the defaults, and the
model defaults retry_count=0 and sent_at=now (auto_now_add). -/
def newRecord (post portal : Nat) (d : UpsertDefaults) (now : String) : DistRecord :=
  { news_post := post
    portal := portal
    portal_category := d.portal_category
    master_category := d.master_category
    status := d.status
    response_message := some d.response_message
    ai_title := some d.ai_title
    ai_short_description := some d.ai_short_description
    ai_content := some d.ai_content
    ai_meta_title := some d.ai_meta_title
    ai_slug := some d.ai_slug
    retry_count := 0
    sent_at := now }

/-- NewsDistribution.objects.update_or_create keyed on (news_post, portal)
(app/views.py lines 791-805): the first row with the key is overwritten
with the defaults in place; if no row has the key, a new row is appended. -/
def updateOrCreate : List DistRecord → Nat → Nat → UpsertDefaults → String → List DistRecord
  | [], post, portal, d, now => [newRecord post portal d now]
  | r :: rs, post, portal, d, now =>
    if r.news_post = post ∧ r.portal = portal then
      applyDefaults r d :: rs
    else
      r :: updateOrCreate rs post portal d now

/-- Ledger lookup for the (post, portal) key. -/
def findDist (l : List DistRecord) (post portal : Nat) : Option DistRecord :=
  l.find? (fun r => r.news_post == post && r.portal == portal)

/-- Number of ledger rows holding the (post, portal) key. -/
def countDist (l : List DistRecord) (post portal : Nat) : Nat :=
  (l.filter (fun r => r.news_post == post && r.portal == portal)).length

/-- The (news_post, portal) keys of a ledger, in order. -/
def distKeys (l : List DistRecord) : List (Nat × Nat) :=
  l.map (fun r => (r.news_post, r.portal))

/-- Content determination of app/views.py lines 716-741: passthrough when
the mapping sets use_default_content, otherwise the rewrite generator with
the resolved prompt. -/
def contentFor (env : Env) (post : NewsPost) (t : Target) : Variant :=
  if t.mapping.use_default_content then
    passthroughVariant post
  else
    generate_variation_with_gpt env.loads (env.gpt t.portal.id)
      post.title post.short_description post.content (promptFor env t.portal)
      post.meta_title post.slug (some t.portal.name)

/-- The body of the per-portal loop after the exclusion check
(app/views.py lines 716-812): generate content, resolve the portal user
(missing mapping appends a failure entry and leaves the ledger untouched),
build the payload, perform the HTTP call, classify it, upsert the ledger
row, and append the result entry.  The third component lists the network
sends the iteration performed. -/
def dispatchTarget (env : Env) (post : NewsPost) (mcId : Nat) (t : Target)
    (ledger : List DistRecord) : PortalResult × List DistRecord × List SentRequest :=
  let v := contentFor env post t
  match identityFor env t.portal with
  | none =>
    ({ portal := t.portal.name, category := t.pcat.name, success := false,
       response := "No valid portal user mapping found." }, ledger, [])
  | some pu =>
    let payload := buildPayload env post t.pcat pu v
    let sent : SentRequest :=
      { url := t.portal.base_url ++ "/api/create-news/", payload := payload,
        image := post.post_image }
    let succ := isSuccessOutcome (env.net t.portal.id)
    let msg := outcomeText (env.net t.portal.id)
    let d : UpsertDefaults :=
      { portal_category := some t.pcat.id
        master_category := some mcId
        status := if succ then "SUCCESS" else "FAILED"
        response_message := msg
        ai_title := v.title
        ai_short_description := v.short_description
        ai_content := v.description
        ai_meta_title := v.meta_title
        ai_slug := v.slug }
    ({ portal := t.portal.name, category := t.pcat.name, success := succ, response := msg },
      updateOrCreate ledger post.id t.portal.id d env.now, [sent])

/-- One iteration of the per-portal loop (app/views.py lines 702-812):
portals named or numbered in excluded_portals are skipped with a manual-skip
entry before any work happens. -/
def processTarget (env : Env) (post : NewsPost) (mcId : Nat)
    (excludedIds : List Nat) (excludedNames : List String) (t : Target)
    (ledger : List DistRecord) : PortalResult × List DistRecord × List SentRequest :=
  if excludedIds.contains t.portal.id || excludedNames.contains t.portal.name then
    ({ portal := t.portal.name, category := t.pcat.name, success := false,
       response := "Skipped manually by user" }, ledger, [])
  else
    dispatchTarget env post mcId t ledger

/-- The full per-portal loop: targets are processed in order, each iteration
threading the ledger to the next; results and sends accumulate. -/
def publishLoop (env : Env) (post : NewsPost) (mcId : Nat)
    (excludedIds : List Nat) (excludedNames : List String) :
    List Target → List DistRecord → List PortalResult × List DistRecord × List SentRequest
  | [], ledger => ([], ledger, [])
  | t :: ts, ledger =>
    let step := processTarget env post mcId excludedIds excludedNames t ledger
    let rest := publishLoop env post mcId excludedIds excludedNames ts step.2.1
    (step.1 :: rest.1, rest.2.1, step.2.2 ++ rest.2.2)

/-- Database snapshot read by the publish endpoint. -/
structure Db where
  portals : List Portal
  pcats : List PortalCategory
  mappings : List Mapping
  posts : List NewsPost
  assignments : List AssignmentRow

/-- The join of app/views.py lines 685-687: mapping rows of the chosen
master category, each with its portal category and portal. -/
def resolveTargets (db : Db) (mcId : Nat) : List Target :=
  (db.mappings.filter (fun m => m.master_category == mcId)).filterMap (fun m =>
    (db.pcats.find? (fun pc => pc.id == m.portal_category)).bind (fun pc =>
      (db.portals.find? (fun p => p.id == pc.portal)).map (fun p =>
        { mapping := m, pcat := pc, portal := p })))

/-- Result of the publish endpoint: an error response with an HTTP status
code, or the success response together with the new ledger and the network
sends performed. -/
inductive ApiResult where
  | err (code : Nat) (msg : String)
  | ok (results : List PortalResult) (ledger : List DistRecord) (sends : List SentRequest)
deriving DecidableEq

/-- MasterNewsPostPublishAPIView.post (app/views.py lines 640-817).
Validation order of the source: a missing master_category_id is rejected
immediately with "Please provide master_category_id." (lines 645-649);
the post is fetched (line 652, a missing post raises Http404 which the
catch-all turns into a 500); the user must hold an assignment for the
master category (lines 655-663); the source's second
`if not master_category_id` block (lines 668-682, the is_default fallback)
sits after the first check and can therefore never run, so it has no
counterpart here; an empty mapping set is rejected (lines 689-693); then
the per-portal loop runs. -/
def publishEndpoint (env : Env) (db : Db) (postPk : Nat) (mcId : Option Nat)
    (excludedIds : List Nat) (excludedNames : List String)
    (ledger : List DistRecord) : ApiResult :=
  match mcId with
  | none => .err 400 "Please provide master_category_id."
  | some mc =>
    match db.posts.find? (fun p => p.id == postPk) with
    | none => .err 500 "No MasterNewsPost matches the given query."
    | some post =>
      if (db.assignments.find? (fun a =>
          a.user == env.userId && a.master_category == some mc)).isNone then
        .err 403 "You are not assigned to this master category."
      else if (db.mappings.filter (fun m => m.master_category == mc)).isEmpty then
        .err 400 "No portals mapped for this master category."
      else
        .ok (publishLoop env post mc excludedIds excludedNames (resolveTargets db mc) ledger).1
          (publishLoop env post mc excludedIds excludedNames (resolveTargets db mc) ledger).2.1
          (publishLoop env post mc excludedIds excludedNames (resolveTargets db mc) ledger).2.2

/-- Modelled from the spec: the skip-if-success dispatch strategy of
section 4.4 step 1, which is absent from the src snapshot (the snapshot's
publish view always re-sends; the spec records two dispatch strategies in
the system's evolution and requires the skip-if-success one to be
supported).  Before dispatching to a portal, an existing
DistributionRecord for (post, portal) with status SUCCESS is treated as
already delivered: the iteration returns a skipped-success result, does
not send anything, and leaves the ledger untouched.  Exclusion is checked
first, as in the source loop. -/
def processTargetSkip (env : Env) (post : NewsPost) (mcId : Nat)
    (excludedIds : List Nat) (excludedNames : List String) (t : Target)
    (ledger : List DistRecord) : PortalResult × List DistRecord × List SentRequest :=
  if excludedIds.contains t.portal.id || excludedNames.contains t.portal.name then
    ({ portal := t.portal.name, category := t.pcat.name, success := false,
       response := "Skipped manually by user" }, ledger, [])
  else
    match findDist ledger post.id t.portal.id with
    | some r =>
      if r.status == "SUCCESS" then
        ({ portal := t.portal.name, category := t.pcat.name, success := true,
           response := "Skipped: already delivered." }, ledger, [])
      else
        dispatchTarget env post mcId t ledger
    | none => dispatchTarget env post mcId t ledger

/-- Modelled from the spec: the per-portal loop under the skip-if-success
strategy; identical to the source loop except for the per-target step. -/
def publishLoopSkip (env : Env) (post : NewsPost) (mcId : Nat)
    (excludedIds : List Nat) (excludedNames : List String) :
    List Target → List DistRecord → List PortalResult × List DistRecord × List SentRequest
  | [], ledger => ([], ledger, [])
  | t :: ts, ledger =>
    let step := processTargetSkip env post mcId excludedIds excludedNames t ledger
    let rest := publishLoopSkip env post mcId excludedIds excludedNames ts step.2.1
    (step.1 :: rest.1, rest.2.1, step.2.2 ++ rest.2.2)

/-- Portal of a portal-category id: the portal foreign key of the
PortalCategory row, when the row exists. -/
def portalOfPc (pcats : List PortalCategory) (pcId : Nat) : Option Nat :=
  (pcats.find? (fun pc => pc.id == pcId)).map (fun pc => pc.portal)

/-- Portal of a mapping row, through its portal_category foreign key
(the portal_category__portal join of app/views.py). -/
def portalOfM (pcats : List PortalCategory) (m : Mapping) : Option Nat :=
  portalOfPc pcats m.portal_category

/-- The sibling-clearing update of app/views.py lines 429-433 and 485-489:
MasterCategoryMapping.objects.filter(portal_category__portal=P)
.exclude(id=keepId).update(is_default=False).  The portal is passed as the
portal of the mapping being saved; a dangling portal_category (impossible
under the FK constraint) matches no sibling. -/
def clearSiblings (pcats : List PortalCategory) (db : List Mapping) (keepId : Nat)
    (portal : Option Nat) : List Mapping :=
  match portal with
  | none => db
  | some pid =>
    db.map (fun r =>
      if r.id ≠ keepId ∧ portalOfM pcats r = some pid then
        { r with is_default := false }
      else r)

/-- MasterCategoryMappingView.patch (app/views.py lines 467-501): fetch the
mapping by pk (a missing row is a 404 that leaves the table unchanged),
optionally overwrite use_default_content, optionally overwrite is_default,
and when the new is_default is truthy clear the flag on every other mapping
whose portal category belongs to the same portal; finally save the row. -/
def patchMapping (pcats : List PortalCategory) (db : List Mapping) (pk : Nat)
    (udc isDef : Option Bool) : List Mapping :=
  match db.find? (fun m => m.id == pk) with
  | none => db
  | some m =>
    let m1 := match udc with
      | some b => { m with use_default_content := b }
      | none => m
    let m2 := match isDef with
      | some b => { m1 with is_default := b }
      | none => m1
    let db1 := if isDef = some true then clearSiblings pcats db pk (portalOfM pcats m) else db
    db1.map (fun r => if r.id = pk then m2 else r)

/-- Largest mapping id in the table (0 when empty); a fresh row gets the
next id, mirroring an auto-increment primary key. -/
def maxMapId (db : List Mapping) : Nat :=
  db.foldr (fun m a => max m.id a) 0

/-- One iteration of MasterCategoryMappingView.post (app/views.py
lines 403-436): get_or_create on (master_category, portal_category); when
the row exists its two booleans are overwritten with the requested values,
when it does not a fresh row is inserted; then, if the requested is_default
is truthy, the flag is cleared on all other mappings of the same portal. -/
def createOrUpdateMapping (pcats : List PortalCategory) (db : List Mapping)
    (mcId pcId : Nat) (udc isDef : Bool) : List Mapping :=
  match db.find? (fun m => m.master_category == mcId && m.portal_category == pcId) with
  | some m =>
    let m1 := { m with use_default_content := udc, is_default := isDef }
    let db1 := db.map (fun r => if r.id = m.id then m1 else r)
    if isDef then clearSiblings pcats db1 m.id (portalOfPc pcats pcId) else db1
  | none =>
    let newM : Mapping :=
      { id := maxMapId db + 1, master_category := mcId, portal_category := pcId,
        use_default_content := udc, is_default := isDef }
    let db1 := db ++ [newM]
    if isDef then clearSiblings pcats db1 newM.id (portalOfPc pcats pcId) else db1

/-- An operation on the mapping table that may set is_default: a PATCH on
one mapping, or one iteration of the bulk POST. -/
inductive MapOp where
  | patch (pk : Nat) (udc isDef : Option Bool)
  | createOrUpdate (mcId pcId : Nat) (udc isDef : Bool)

/-- Apply one mapping operation to the table. -/
def applyMapOp (pcats : List PortalCategory) (db : List Mapping) : MapOp → List Mapping
  | .patch pk udc isDef => patchMapping pcats db pk udc isDef
  | .createOrUpdate mcId pcId udc isDef => createOrUpdateMapping pcats db mcId pcId udc isDef

/-- Apply a sequence of mapping operations in order. -/
def applyMapOps (pcats : List PortalCategory) (ops : List MapOp) (db : List Mapping) : List Mapping :=
  ops.foldl (fun d op => applyMapOp pcats d op) db

/-- Primary keys of the mapping table are pairwise distinct. -/
abbrev mapIdsNodup (db : List Mapping) : Prop :=
  (db.map (fun m => m.id)).Nodup

/-- At most one mapping per portal carries is_default: two flagged mappings
whose portal categories resolve to the same portal are the same row. -/
abbrev atMostOneDefault (pcats : List PortalCategory) (db : List Mapping) : Prop :=
  ∀ m1 ∈ db, ∀ m2 ∈ db, m1.is_default = true → m2.is_default = true →
    portalOfM pcats m1 = portalOfM pcats m2 → portalOfM pcats m1 ≠ none → m1.id = m2.id

/-- Well-formedness of the mapping table: distinct primary keys and the
at-most-one-default-per-portal invariant. -/
abbrev MappingInv (pcats : List PortalCategory) (db : List Mapping) : Prop :=
  mapIdsNodup db ∧ atMostOneDefault pcats db

/-- Pointwise description shared by every default-setting branch of the two
mapping operations: the row with the saved id becomes the saved row, every
other row of the saved row's portal loses its flag, all else is unchanged. -/
def upsertDefaultClear (pcats : List PortalCategory) (keep : Nat) (m2 : Mapping)
    (pid : Nat) (r : Mapping) : Mapping :=
  if r.id = keep then m2
  else if portalOfM pcats r = some pid then { r with is_default := false }
  else r

/-- One invocation of the publish endpoint: its environment, database
snapshot and request parameters. -/
structure PublishCall where
  env : Env
  db : Db
  postPk : Nat
  mcId : Option Nat
  excludedIds : List Nat
  excludedNames : List String

/-- Ledger after one endpoint invocation: an error response leaves the
ledger unchanged, a success response replaces it with the loop's ledger. -/
def applyPublishCall (l : List DistRecord) (c : PublishCall) : List DistRecord :=
  match publishEndpoint c.env c.db c.postPk c.mcId c.excludedIds c.excludedNames l with
  | .ok _ l2 _ => l2
  | .err _ _ => l

/-- Ledger after a sequence of endpoint invocations. -/
def applyPublishCalls (calls : List PublishCall) (l : List DistRecord) : List DistRecord :=
  calls.foldl applyPublishCall l

/-- Concrete fixture: portal A. -/
def samplePortalA : Portal := ⟨1, "PortalA", "http://a.example"⟩

/-- Concrete fixture: portal B. -/
def samplePortalB : Portal := ⟨2, "PortalB", "http://b.example"⟩

/-- Concrete fixture: a category of portal A with external id "12". -/
def samplePcA : PortalCategory := ⟨11, 1, "SportsA", "12"⟩

/-- Concrete fixture: a category of portal B with external id "7". -/
def samplePcB : PortalCategory := ⟨12, 2, "SportsB", "7"⟩

/-- Concrete fixture: master category 1 mapped to portal A's category,
passthrough content. -/
def sampleMapA : Mapping :=
  { id := 21
    master_category := 1
    portal_category := 11
    use_default_content := true }

/-- Concrete fixture: master category 1 mapped to portal B's category,
passthrough content. -/
def sampleMapB : Mapping :=
  { id := 22
    master_category := 1
    portal_category := 12
    use_default_content := true }

/-- Concrete fixture: a master news post with a meta title and no slug. -/
def samplePost : NewsPost :=
  { id := 1
    created_by := 1
    title := "Original Title"
    short_description := "Short"
    content := "Body"
    latest_news := some true
    meta_title := some "My Meta" }

/-- Concrete fixture: user 1's MATCHED identity row on portal A. -/
def samplePuA : PortalUserRow := ⟨1, 1, some "7", some "vasista", "MATCHED"⟩

/-- Concrete fixture: user 1's MATCHED identity row on portal B. -/
def samplePuB : PortalUserRow := ⟨1, 2, some "9", some "vasista", "MATCHED"⟩

/-- Concrete fixture: an environment for user 1 with MATCHED identities on
both portals, no prompts, a parameterized network, a raising rewrite
service and a never-succeeding JSON decoder. -/
def sampleEnv (netf : Nat → NetOutcome) : Env :=
  { userId := 1
    identities := [samplePuA, samplePuB]
    prompts := []
    net := netf
    gpt := fun _ => .raised
    loads := fun _ => none
    today := "2026-01-01"
    now := "2026-01-01T00:00:00" }

/-- Concrete fixture: environment whose portal calls all fail with a 500. -/
def sampleFailEnv : Env := sampleEnv (fun _ => .resp 500 "server error")

/-- Concrete fixture: environment whose portal calls all succeed with 200. -/
def sampleOkEnv : Env := sampleEnv (fun _ => .resp 200 "created")

/-- Concrete fixture: the database holding the fixtures above and an
assignment of user 1 to master category 1. -/
def sampleDb : Db :=
  { portals := [samplePortalA, samplePortalB]
    pcats := [samplePcA, samplePcB]
    mappings := [sampleMapA, sampleMapB]
    posts := [samplePost]
    assignments := [⟨1, some 1, none⟩] }

/-- Concrete fixture: the resolved target for portal A. -/
def sampleTargetA : Target := ⟨sampleMapA, samplePcA, samplePortalA⟩

/-- Concrete fixture: the resolved target for portal B. -/
def sampleTargetB : Target := ⟨sampleMapB, samplePcB, samplePortalB⟩

/-- Concrete fixture: like sampleOkEnv, but user 1 has no identity row on
portal A (only the MATCHED row on portal B). -/
def sampleNoIdEnv : Env := { sampleOkEnv with identities := [samplePuB] }

/-- Concrete fixture: the sample database with portal A's mapping flagged
is_default. -/
def sampleDbDefault : Db :=
  { sampleDb with mappings := [{ sampleMapA with is_default := true }, sampleMapB] }

theorem findDist_updateOrCreate (l : List DistRecord) (post portal : Nat)
    (d : UpsertDefaults) (now : String) :
    findDist (updateOrCreate l post portal d now) post portal =
      some (match findDist l post portal with
            | some r => applyDefaults r d
            | none => newRecord post portal d now) := by
  induction l with
  | nil => simp [findDist, updateOrCreate, newRecord]
  | cons r rs ih =>
    by_cases h : r.news_post = post ∧ r.portal = portal
    · simp [findDist, updateOrCreate, h, applyDefaults, List.find?_cons, h.1, h.2]
    · have hb : (r.news_post == post && r.portal == portal) = false := by
        simp only [Bool.and_eq_false_iff, beq_eq_false_iff_ne, ne_eq]
        by_cases h1 : r.news_post = post
        · exact Or.inr (fun h2 => h ⟨h1, h2⟩)
        · exact Or.inl h1
      simp only [updateOrCreate, if_neg h, findDist, List.find?_cons, hb] at *
      exact ih

theorem distKeys_mem_updateOrCreate (l : List DistRecord) (post portal : Nat)
    (d : UpsertDefaults) (now : String) (k : Nat × Nat)
    (hk : k ∈ distKeys (updateOrCreate l post portal d now)) :
    k ∈ distKeys l ∨ k = (post, portal) := by
  induction l with
  | nil =>
    simp [updateOrCreate, distKeys, newRecord] at hk
    exact Or.inr hk
  | cons r rs ih =>
    by_cases h : r.news_post = post ∧ r.portal = portal
    · simp only [updateOrCreate, if_pos h, distKeys, List.map_cons, List.mem_cons] at hk ⊢
      cases hk with
      | inl hk => exact Or.inl (Or.inl hk)
      | inr hk => exact (Or.inl (Or.inr hk))
    · simp only [updateOrCreate, if_neg h, distKeys, List.map_cons, List.mem_cons] at hk ⊢
      cases hk with
      | inl hk => exact Or.inl (Or.inl hk)
      | inr hk =>
        cases ih hk with
        | inl hm => exact Or.inl (Or.inr hm)
        | inr he => exact Or.inr he

theorem distKeys_nodup_updateOrCreate (l : List DistRecord) (post portal : Nat)
    (d : UpsertDefaults) (now : String) (h : (distKeys l).Nodup) :
    (distKeys (updateOrCreate l post portal d now)).Nodup := by
  induction l with
  | nil => simp [updateOrCreate, distKeys]
  | cons r rs ih =>
    by_cases hc : r.news_post = post ∧ r.portal = portal
    · simpa only [updateOrCreate, if_pos hc, distKeys, List.map_cons, List.nodup_cons,
        applyDefaults] using h
    · simp only [distKeys, List.map_cons, List.nodup_cons] at h
      simp only [updateOrCreate, if_neg hc, distKeys, List.map_cons, List.nodup_cons]
      refine ⟨fun hm => ?_, ih h.2⟩
      cases distKeys_mem_updateOrCreate rs post portal d now _ hm with
      | inl hm2 => exact h.1 hm2
      | inr he =>
        apply hc
        have h1 := congrArg Prod.fst he
        have h2 := congrArg Prod.snd he
        exact ⟨h1, h2⟩

theorem countDist_updateOrCreate (l : List DistRecord) (post portal : Nat)
    (d : UpsertDefaults) (now : String) :
    countDist (updateOrCreate l post portal d now) post portal =
      if countDist l post portal = 0 then 1 else countDist l post portal := by
  induction l with
  | nil => simp [countDist, updateOrCreate, newRecord]
  | cons r rs ih =>
    by_cases h : r.news_post = post ∧ r.portal = portal
    · have hb : (r.news_post == post && r.portal == portal) = true := by
        simp [h.1, h.2]
      simp [countDist, updateOrCreate, if_pos h, applyDefaults, List.filter_cons, hb]
    · have hb : (r.news_post == post && r.portal == portal) = false := by
        simp only [Bool.and_eq_false_iff, beq_eq_false_iff_ne, ne_eq]
        by_cases h1 : r.news_post = post
        · exact Or.inr (fun h2 => h ⟨h1, h2⟩)
        · exact Or.inl h1
      simp only [countDist, updateOrCreate, if_neg h, List.filter_cons, hb] at *
      exact ih

theorem findDist_none_countDist (l : List DistRecord) (post portal : Nat)
    (h : findDist l post portal = none) : countDist l post portal = 0 := by
  induction l with
  | nil => simp [countDist]
  | cons r rs ih =>
    simp only [findDist, List.find?_cons] at h
    rcases hb : (r.news_post == post && r.portal == portal) with _ | _
    · simp only [hb] at h
      simp only [countDist, List.filter_cons, hb]
      exact ih h
    · simp [hb] at h

theorem distKeys_nodup_processTarget (env : Env) (post : NewsPost) (mcId : Nat)
    (ei : List Nat) (en : List String) (t : Target) (l : List DistRecord)
    (h : (distKeys l).Nodup) :
    (distKeys (processTarget env post mcId ei en t l).2.1).Nodup := by
  unfold processTarget dispatchTarget
  split
  · exact h
  · split
    · exact h
    · exact distKeys_nodup_updateOrCreate _ _ _ _ _ h

theorem distKeys_nodup_publishLoop (env : Env) (post : NewsPost) (mcId : Nat)
    (ei : List Nat) (en : List String) (ts : List Target) (l : List DistRecord)
    (h : (distKeys l).Nodup) :
    (distKeys (publishLoop env post mcId ei en ts l).2.1).Nodup := by
  induction ts generalizing l with
  | nil => simpa [publishLoop] using h
  | cons t ts ih =>
    simp only [publishLoop]
    exact ih _ (distKeys_nodup_processTarget env post mcId ei en t l h)

theorem publishEndpoint_ok_ledger (env : Env) (db : Db) (pk : Nat) (mcId : Option Nat)
    (ei : List Nat) (en : List String) (l : List DistRecord)
    (results : List PortalResult) (l2 : List DistRecord) (sends : List SentRequest)
    (heq : publishEndpoint env db pk mcId ei en l = .ok results l2 sends) :
    ∃ post mc, db.posts.find? (fun p => p.id == pk) = some post ∧ mcId = some mc ∧
      l2 = (publishLoop env post mc ei en (resolveTargets db mc) l).2.1 := by
  unfold publishEndpoint at heq
  cases mcId with
  | none => exact absurd heq (by simp)
  | some mc =>
    cases hf : db.posts.find? (fun p => p.id == pk) with
    | none => rw [hf] at heq; exact absurd heq (by simp)
    | some post =>
      rw [hf] at heq
      rcases ha : (db.assignments.find? (fun a =>
          a.user == env.userId && a.master_category == some mc)).isNone with _ | _
      · rcases hm : (db.mappings.filter (fun m => m.master_category == mc)).isEmpty with _ | _
        · simp only [ha, hm, Bool.false_eq_true, if_false, ApiResult.ok.injEq] at heq
          exact ⟨post, mc, rfl, rfl, heq.2.1.symm⟩
        · simp [ha, hm] at heq
      · simp [ha] at heq

theorem distKeys_nodup_applyPublishCall (l : List DistRecord) (c : PublishCall)
    (h : (distKeys l).Nodup) : (distKeys (applyPublishCall l c)).Nodup := by
  unfold applyPublishCall
  split
  · next res l2 sends heq =>
    obtain ⟨post, mc, hf, hmc, hl2⟩ :=
      publishEndpoint_ok_ledger c.env c.db c.postPk c.mcId c.excludedIds c.excludedNames
        l res l2 sends heq
    rw [hl2]
    exact distKeys_nodup_publishLoop c.env post mc c.excludedIds c.excludedNames
      (resolveTargets c.db mc) l h
  · exact h

theorem distKeys_nodup_applyPublishCalls (calls : List PublishCall) (l : List DistRecord)
    (h : (distKeys l).Nodup) : (distKeys (applyPublishCalls calls l)).Nodup := by
  induction calls generalizing l with
  | nil => simpa [applyPublishCalls] using h
  | cons c cs ih =>
    simp only [applyPublishCalls, List.foldl_cons]
    exact ih _ (distKeys_nodup_applyPublishCall l c h)

theorem processTarget_dispatch (env : Env) (post : NewsPost) (mcId : Nat)
    (ei : List Nat) (en : List String) (t : Target) (l : List DistRecord)
    (hexc : (ei.contains t.portal.id || en.contains t.portal.name) = false) :
    processTarget env post mcId ei en t l = dispatchTarget env post mcId t l := by
  unfold processTarget
  rw [hexc]
  simp

theorem dispatchTarget_shape (env : Env) (post : NewsPost) (mcId : Nat) (t : Target)
    (l : List DistRecord) (pu : PortalUserRow)
    (hid : identityFor env t.portal = some pu) :
    dispatchTarget env post mcId t l =
      ({ portal := t.portal.name, category := t.pcat.name,
         success := isSuccessOutcome (env.net t.portal.id),
         response := outcomeText (env.net t.portal.id) },
       updateOrCreate l post.id t.portal.id
         { portal_category := some t.pcat.id
           master_category := some mcId
           status := if isSuccessOutcome (env.net t.portal.id) then "SUCCESS" else "FAILED"
           response_message := outcomeText (env.net t.portal.id)
           ai_title := (contentFor env post t).title
           ai_short_description := (contentFor env post t).short_description
           ai_content := (contentFor env post t).description
           ai_meta_title := (contentFor env post t).meta_title
           ai_slug := (contentFor env post t).slug } env.now,
       [{ url := t.portal.base_url ++ "/api/create-news/",
          payload := buildPayload env post t.pcat pu (contentFor env post t),
          image := post.post_image }]) := by
  simp only [dispatchTarget, hid]

theorem dispatchTarget_noidentity (env : Env) (post : NewsPost) (mcId : Nat) (t : Target)
    (l : List DistRecord) (hid : identityFor env t.portal = none) :
    dispatchTarget env post mcId t l =
      ({ portal := t.portal.name, category := t.pcat.name, success := false,
         response := "No valid portal user mapping found." }, l, []) := by
  simp only [dispatchTarget, hid]

theorem processTarget_ledger (env : Env) (post : NewsPost) (mcId : Nat)
    (ei : List Nat) (en : List String) (t : Target) (l : List DistRecord)
    (pu : PortalUserRow)
    (hexc : (ei.contains t.portal.id || en.contains t.portal.name) = false)
    (hid : identityFor env t.portal = some pu) :
    ∃ d, (processTarget env post mcId ei en t l).2.1
        = updateOrCreate l post.id t.portal.id d env.now ∧
      d.status = (if isSuccessOutcome (env.net t.portal.id) then "SUCCESS" else "FAILED") := by
  rw [processTarget_dispatch env post mcId ei en t l hexc,
    dispatchTarget_shape env post mcId t l pu hid]
  exact ⟨_, rfl, rfl⟩

/-- C6: for every post and portal, at most one DistributionRecord exists for
the pair (post, portal) after any sequence of publish calls: the ledger's
(news_post, portal) keys stay pairwise distinct, because the upsert of
app/views.py lines 791-805 updates the existing row in place rather than
inserting a duplicate. -/
theorem c6_at_most_one_record_per_pair (calls : List PublishCall) (l0 : List DistRecord)
    (h : (distKeys l0).Nodup) : (distKeys (applyPublishCalls calls l0)).Nodup :=
  distKeys_nodup_applyPublishCalls calls l0 h

/-- Witness for C6: starting from the empty ledger, a successful publish of
the sample post to both portals followed by a failed re-publish keeps the
keys pairwise distinct. -/
theorem c6_at_most_one_record_per_pair_witness :
    (distKeys ([] : List DistRecord)).Nodup ∧
    (distKeys (applyPublishCalls
      [⟨sampleOkEnv, sampleDb, 1, some 1, [], []⟩,
       ⟨sampleFailEnv, sampleDb, 1, some 1, [], []⟩] [])).Nodup :=
  ⟨by decide, c6_at_most_one_record_per_pair
    [⟨sampleOkEnv, sampleDb, 1, some 1, [], []⟩,
     ⟨sampleFailEnv, sampleDb, 1, some 1, [], []⟩] [] (by decide)⟩

/-- C2 (amended): after a FAILED publish(P, X) followed by a retry
publish(P, X), exactly one DistributionRecord exists for (P, X); its
retry_count, however, is not changed by the retry: the upsert's defaults
dictionary never touches retry_count, so it keeps the creation default 0. -/
theorem c2_retry_single_record_retry_count_unchanged
    (env1 env2 : Env) (post : NewsPost) (mcId : Nat)
    (ei : List Nat) (en : List String) (t : Target) (l0 : List DistRecord)
    (hkey : findDist l0 post.id t.portal.id = none)
    (hexc : (ei.contains t.portal.id || en.contains t.portal.name) = false)
    (pu1 : PortalUserRow) (hid1 : identityFor env1 t.portal = some pu1)
    (hfail : isSuccessOutcome (env1.net t.portal.id) = false)
    (pu2 : PortalUserRow) (hid2 : identityFor env2 t.portal = some pu2) :
    (findDist (processTarget env1 post mcId ei en t l0).2.1 post.id t.portal.id).map
        (fun r => (r.status, r.retry_count)) = some ("FAILED", 0) ∧
    countDist (processTarget env1 post mcId ei en t l0).2.1 post.id t.portal.id = 1 ∧
    countDist (processTarget env2 post mcId ei en t
        (processTarget env1 post mcId ei en t l0).2.1).2.1 post.id t.portal.id = 1 ∧
    (findDist (processTarget env2 post mcId ei en t
        (processTarget env1 post mcId ei en t l0).2.1).2.1 post.id t.portal.id).map
        (fun r => r.retry_count) =
      (findDist (processTarget env1 post mcId ei en t l0).2.1 post.id t.portal.id).map
        (fun r => r.retry_count) := by
  obtain ⟨d1, e1, hs1⟩ := processTarget_ledger env1 post mcId ei en t l0 pu1 hexc hid1
  rw [hfail] at hs1
  simp only [Bool.false_eq_true, if_false] at hs1
  obtain ⟨d2, e2, _⟩ := processTarget_ledger env2 post mcId ei en t
    (processTarget env1 post mcId ei en t l0).2.1 pu2 hexc hid2
  have f1 : findDist (processTarget env1 post mcId ei en t l0).2.1 post.id t.portal.id
      = some (newRecord post.id t.portal.id d1 env1.now) := by
    rw [e1, findDist_updateOrCreate, hkey]
  have c1 : countDist (processTarget env1 post mcId ei en t l0).2.1 post.id t.portal.id = 1 := by
    rw [e1, countDist_updateOrCreate, findDist_none_countDist l0 post.id t.portal.id hkey]
    simp
  refine ⟨?_, c1, ?_, ?_⟩
  · rw [f1]
    simp [newRecord, hs1]
  · rw [e2, countDist_updateOrCreate, c1]
    simp
  · rw [e2, findDist_updateOrCreate, f1]
    simp [applyDefaults]

/-- Witness for C2 (amended): the sample post published twice to portal A
through a failing network from the empty ledger. -/
theorem c2_retry_single_record_retry_count_unchanged_witness :
    (findDist [] samplePost.id sampleTargetA.portal.id = none) ∧
    countDist (processTarget sampleFailEnv samplePost 1 [] [] sampleTargetA
        (processTarget sampleFailEnv samplePost 1 [] [] sampleTargetA []).2.1).2.1
      samplePost.id sampleTargetA.portal.id = 1 :=
  ⟨by decide,
    (c2_retry_single_record_retry_count_unchanged sampleFailEnv sampleFailEnv samplePost 1
      [] [] sampleTargetA [] (by decide) (by decide) samplePuA (by decide) (by decide)
      samplePuA (by decide)).2.2.1⟩

/-- Counterexample to C2 as stated: with the sample post, portal A and a
network that always answers 500, a FAILED publish followed by a retry
leaves retry_count at 0; it does not increase by 1, because the upsert of
app/views.py lines 791-805 never writes retry_count. -/
theorem c2_counterexample :
    ((findDist (processTarget sampleFailEnv samplePost 1 [] [] sampleTargetA []).2.1
        samplePost.id sampleTargetA.portal.id).map (fun r => (r.status, r.retry_count))
      = some ("FAILED", 0)) ∧
    ((findDist (processTarget sampleFailEnv samplePost 1 [] [] sampleTargetA
        (processTarget sampleFailEnv samplePost 1 [] [] sampleTargetA []).2.1).2.1
        samplePost.id sampleTargetA.portal.id).map (fun r => r.retry_count)
      = some 0) ∧
    ¬ ((findDist (processTarget sampleFailEnv samplePost 1 [] [] sampleTargetA
        (processTarget sampleFailEnv samplePost 1 [] [] sampleTargetA []).2.1).2.1
        samplePost.id sampleTargetA.portal.id).map (fun r => r.retry_count)
      = some (0 + 1)) := by
  refine ⟨by decide, by decide, by decide⟩

/-- C8: for every target portal with no MATCHED identity row for the acting
user, the publish loop records a missing-identity failure entry for that
portal, writes and updates nothing in the ledger for it, and continues with
the remaining targets of the batch. -/
theorem c8_missing_identity_partial_failure
    (env : Env) (post : NewsPost) (mcId : Nat) (ei : List Nat) (en : List String)
    (t : Target) (rest : List Target) (l : List DistRecord)
    (hexc : (ei.contains t.portal.id || en.contains t.portal.name) = false)
    (hid : identityFor env t.portal = none) :
    processTarget env post mcId ei en t l =
      ({ portal := t.portal.name, category := t.pcat.name, success := false,
         response := "No valid portal user mapping found." }, l, []) ∧
    publishLoop env post mcId ei en (t :: rest) l =
      ({ portal := t.portal.name, category := t.pcat.name, success := false,
         response := "No valid portal user mapping found." } ::
          (publishLoop env post mcId ei en rest l).1,
        (publishLoop env post mcId ei en rest l).2.1,
        (publishLoop env post mcId ei en rest l).2.2) := by
  have h1 : processTarget env post mcId ei en t l =
      ({ portal := t.portal.name, category := t.pcat.name, success := false,
         response := "No valid portal user mapping found." }, l, []) := by
    rw [processTarget_dispatch env post mcId ei en t l hexc,
      dispatchTarget_noidentity env post mcId t l hid]
  refine ⟨h1, ?_⟩
  simp only [publishLoop, h1, List.nil_append]

/-- Witness for C8: in an environment where user 1 has no identity row on
portal A, the loop over portal A then portal B fails portal A with the
missing-identity message, leaves the ledger empty for it, and still
processes portal B. -/
theorem c8_missing_identity_partial_failure_witness :
    (identityFor sampleNoIdEnv sampleTargetA.portal = none) ∧
    processTarget sampleNoIdEnv samplePost 1 [] [] sampleTargetA [] =
      ({ portal := "PortalA", category := "SportsA", success := false,
         response := "No valid portal user mapping found." }, [], []) :=
  ⟨by decide,
    (c8_missing_identity_partial_failure sampleNoIdEnv samplePost 1 [] [] sampleTargetA
      [sampleTargetB] [] (by decide) (by decide)).1⟩

/-- C9: the outbound payload's is_active field is 1 exactly when the post's
latest_news flag is truthy (0 when it is false or absent), and the payload
does not depend on the post's own is_active field at all. -/
theorem c9_payload_is_active_from_latest_news (env : Env) (post : NewsPost)
    (pcat : PortalCategory) (pu : PortalUserRow) (v : Variant) :
    (buildPayload env post pcat pu v).is_active
        = (if post.latest_news = some true then 1 else 0) ∧
    ∀ b : Option Bool,
      buildPayload env { post with is_active := b } pcat pu v
        = buildPayload env post pcat pu v := by
  constructor
  · cases h : post.latest_news with
    | none => simp [buildPayload, boolFlag, h]
    | some b => cases b <;> simp [buildPayload, boolFlag, h]
  · intro b
    rfl

theorem findDist_updateOrCreate_status (l : List DistRecord) (p q : Nat)
    (d : UpsertDefaults) (now : String) :
    ∃ r, findDist (updateOrCreate l p q d now) p q = some r ∧ r.status = d.status ∧
      r.retry_count = (match findDist l p q with | some old => old.retry_count | none => 0) := by
  rw [findDist_updateOrCreate]
  cases hf : findDist l p q with
  | none => simp only [hf]; exact ⟨_, rfl, rfl, rfl⟩
  | some old => simp only [hf]; exact ⟨_, rfl, rfl, rfl⟩

/-- C1 (spec-modelled skip-if-success strategy): after one successful
publish of post P to portal X, the ledger holds a SUCCESS record for
(P, X); a second publish of (P, X) under skip-if-success produces exactly
one result entry marked as already delivered, performs no network send,
and returns the ledger unchanged — in particular the existing record, its
retry_count included, is untouched. -/
theorem c1_skip_if_success_idempotent
    (env1 env2 : Env) (post : NewsPost) (mcId : Nat)
    (ei : List Nat) (en : List String) (t : Target) (l0 : List DistRecord)
    (hexc : (ei.contains t.portal.id || en.contains t.portal.name) = false)
    (pu1 : PortalUserRow) (hid1 : identityFor env1 t.portal = some pu1)
    (hok : isSuccessOutcome (env1.net t.portal.id) = true) :
    (∃ r, findDist (processTarget env1 post mcId ei en t l0).2.1 post.id t.portal.id
        = some r ∧ r.status = "SUCCESS") ∧
    publishLoopSkip env2 post mcId ei en [t]
        (processTarget env1 post mcId ei en t l0).2.1 =
      ([{ portal := t.portal.name, category := t.pcat.name, success := true,
          response := "Skipped: already delivered." }],
        (processTarget env1 post mcId ei en t l0).2.1, []) := by
  obtain ⟨d1, e1, hs1⟩ := processTarget_ledger env1 post mcId ei en t l0 pu1 hexc hid1
  rw [hok] at hs1
  simp only [if_true] at hs1
  obtain ⟨r, f1, hrs, -⟩ := findDist_updateOrCreate_status l0 post.id t.portal.id d1 env1.now
  rw [← e1] at f1
  have hrs2 : r.status = "SUCCESS" := by rw [hrs, hs1]
  refine ⟨⟨r, f1, hrs2⟩, ?_⟩
  have hni : ¬(t.portal.id ∈ ei ∨ t.portal.name ∈ en) := by simpa using hexc
  simp [publishLoopSkip, processTargetSkip, hexc, hni, f1, hrs2]

/-- Witness for C1: publish the sample post to portal A over a 200 network,
then run the skip-if-success loop a second time. -/
theorem c1_skip_if_success_idempotent_witness :
    (isSuccessOutcome (sampleOkEnv.net sampleTargetA.portal.id) = true) ∧
    publishLoopSkip sampleFailEnv samplePost 1 [] [] [sampleTargetA]
        (processTarget sampleOkEnv samplePost 1 [] [] sampleTargetA []).2.1 =
      ([{ portal := "PortalA", category := "SportsA", success := true,
          response := "Skipped: already delivered." }],
        (processTarget sampleOkEnv samplePost 1 [] [] sampleTargetA []).2.1, []) :=
  ⟨by decide,
    (c1_skip_if_success_idempotent sampleOkEnv sampleFailEnv samplePost 1 [] []
      sampleTargetA [] (by decide) samplePuA (by decide) (by decide)).2⟩

/-- C7 (amended): when no master_category_id accompanies a publish call, the
endpoint rejects it immediately with the 400 message
"Please provide master_category_id."; the default-mapping (is_default)
fallback written at app/views.py lines 668-682 sits behind the opposite
guard and never runs, so no fallback to a default-flagged mapping happens
and explicit category selection is always required. -/
theorem c7_missing_category_hard_error (env : Env) (db : Db) (postPk : Nat)
    (ei : List Nat) (en : List String) (l : List DistRecord) :
    publishEndpoint env db postPk none ei en l
      = .err 400 "Please provide master_category_id." ∧
    applyPublishCall l ⟨env, db, postPk, none, ei, en⟩ = l :=
  ⟨rfl, rfl⟩

/-- Counterexample to C7 as stated: even when a default-flagged mapping
exists for portal A, a publish without master_category_id is rejected by
the early guard instead of falling back to that mapping; the ledger is
untouched. -/
theorem c7_counterexample :
    (∃ m ∈ sampleDbDefault.mappings, m.is_default = true) ∧
    publishEndpoint sampleOkEnv sampleDbDefault 1 none [] [] []
      = .err 400 "Please provide master_category_id." ∧
    applyPublishCall [] ⟨sampleOkEnv, sampleDbDefault, 1, none, [], []⟩ = [] :=
  ⟨by decide, rfl, rfl⟩

/-- Counterexample to C3 as stated: the sample post has title
"Original Title", meta title "My Meta" and no slug; passthrough returns
slug "my-meta", derived from the meta title, not "original-title" derived
from the title. -/
theorem c3_counterexample :
    samplePost.slug = none ∧
    (passthroughVariant samplePost).slug = "my-meta" ∧
    slugify samplePost.title = "original-title" ∧
    (passthroughVariant samplePost).slug ≠ slugify samplePost.title :=
  ⟨rfl, by decide, by decide, by decide⟩

/-- C3 (amended): passthrough returns title, short description and body
unchanged; the meta title unchanged when present and non-empty, otherwise
replaced by the title; the slug unchanged when present and non-empty,
otherwise derived from the meta-title-or-title; and the passthrough tuple
coincides with the generator's fallback tuple.  Passthrough is a total
function, so it never fails. -/
theorem c3_passthrough_roundtrip (p : NewsPost) :
    (passthroughVariant p).title = p.title ∧
    (passthroughVariant p).short_description = p.short_description ∧
    (passthroughVariant p).description = p.content ∧
    (∀ m, p.meta_title = some m → m ≠ "" → (passthroughVariant p).meta_title = m) ∧
    (p.meta_title = none → (passthroughVariant p).meta_title = p.title) ∧
    (∀ s, p.slug = some s → s ≠ "" → (passthroughVariant p).slug = s) ∧
    (p.slug = none → (passthroughVariant p).slug = slugify (pyOrStr p.meta_title p.title)) ∧
    passthroughVariant p = gptFallback p.title p.short_description p.content p.meta_title p.slug := by
  refine ⟨rfl, rfl, rfl, ?_, ?_, ?_, ?_, rfl⟩
  · intro m hm hne
    simp [passthroughVariant, pyOrStr, hm, hne]
  · intro hm
    simp [passthroughVariant, pyOrStr, hm]
  · intro s hs hne
    simp [passthroughVariant, pyOrStr, hs, hne]
  · intro hs
    simp [passthroughVariant, pyOrStr, hs]

/-- Witness for C3 (amended) at the sample post: the meta title is kept and
the slug is derived from the meta-title-or-title. -/
theorem c3_passthrough_roundtrip_witness :
    samplePost.meta_title = some "My Meta" ∧
    (passthroughVariant samplePost).meta_title = "My Meta" ∧
    (passthroughVariant samplePost).slug
      = slugify (pyOrStr samplePost.meta_title samplePost.title) :=
  ⟨rfl,
    (c3_passthrough_roundtrip samplePost).2.2.2.1 "My Meta" rfl (by decide),
    (c3_passthrough_roundtrip samplePost).2.2.2.2.2.2.1 rfl⟩

/-- C4: the content variation generator is total (always returns the
five-field tuple) and never propagates an exception; a raised service call
falls back to the passthrough tuple, a response whose strict parse and
brace-extraction parse both fail falls back to the same tuple, a strict
parse feeds the decoded object, a brace-extraction parse feeds the decoded
object, and the fallback tuple equals the mode-(a) passthrough of a post
carrying the same fields. -/
theorem c4_generator_never_raises_falls_back
    (loads : String → Option (List (String × String)))
    (title short_desc desc prompt_text : String)
    (meta_title slug : Option String) (portal_name : Option String) :
    (generate_variation_with_gpt loads .raised title short_desc desc prompt_text
        meta_title slug portal_name = gptFallback title short_desc desc meta_title slug) ∧
    (∀ t, loads (pyStrip t) = none → extractBraces (pyStrip t) = none →
      generate_variation_with_gpt loads (.output t) title short_desc desc prompt_text
        meta_title slug portal_name = gptFallback title short_desc desc meta_title slug) ∧
    (∀ t sub, loads (pyStrip t) = none → extractBraces (pyStrip t) = some sub →
      loads sub = none →
      generate_variation_with_gpt loads (.output t) title short_desc desc prompt_text
        meta_title slug portal_name = gptFallback title short_desc desc meta_title slug) ∧
    (∀ t d, loads (pyStrip t) = some d →
      generate_variation_with_gpt loads (.output t) title short_desc desc prompt_text
        meta_title slug portal_name = variantOfDict d title short_desc desc meta_title slug) ∧
    (∀ t sub d, loads (pyStrip t) = none → extractBraces (pyStrip t) = some sub →
      loads sub = some d →
      generate_variation_with_gpt loads (.output t) title short_desc desc prompt_text
        meta_title slug portal_name = variantOfDict d title short_desc desc meta_title slug) ∧
    (∀ p : NewsPost, p.title = title → p.short_description = short_desc →
      p.content = desc → p.meta_title = meta_title → p.slug = slug →
      gptFallback title short_desc desc meta_title slug = passthroughVariant p) := by
  refine ⟨rfl, ?_, ?_, ?_, ?_, ?_⟩
  · intro t h1 h2
    simp only [generate_variation_with_gpt, h1, h2]
  · intro t sub h1 h2 h3
    simp only [generate_variation_with_gpt, h1, h2, h3]
  · intro t d h1
    simp only [generate_variation_with_gpt, h1]
  · intro t sub d h1 h2 h3
    simp only [generate_variation_with_gpt, h1, h2, h3]
  · intro p h1 h2 h3 h4 h5
    subst h1; subst h2; subst h3; subst h4; subst h5
    rfl

/-- Witness for C4: a decoder that never succeeds on a brace-free garbage
response yields exactly the passthrough tuple. -/
theorem c4_generator_never_raises_falls_back_witness :
    ((fun _ : String => (none : Option (List (String × String)))) (pyStrip "no json here")
      = none) ∧
    extractBraces (pyStrip "no json here") = none ∧
    generate_variation_with_gpt (fun _ => none) (.output "no json here")
        "Original Title" "Short" "Body" "prompt" (some "My Meta") none (some "PortalA")
      = gptFallback "Original Title" "Short" "Body" (some "My Meta") none :=
  ⟨rfl, by decide,
    (c4_generator_never_raises_falls_back (fun _ => none) "Original Title" "Short" "Body"
      "prompt" (some "My Meta") none (some "PortalA")).2.1 "no json here" rfl (by decide)⟩

/-- C10: when the response decodes to a JSON object, each of the five output
fields defaults independently to its original input value when its key is
missing, so the returned tuple always has all five fields populated. -/
theorem c10_missing_keys_default_per_field
    (loads : String → Option (List (String × String))) (t : String)
    (d : List (String × String)) (title short_desc desc prompt_text : String)
    (meta_title slug : Option String) (portal_name : Option String)
    (h : loads (pyStrip t) = some d) :
    generate_variation_with_gpt loads (.output t) title short_desc desc prompt_text
        meta_title slug portal_name = variantOfDict d title short_desc desc meta_title slug ∧
    (d.find? (fun kv => kv.1 == "title") = none →
      (generate_variation_with_gpt loads (.output t) title short_desc desc prompt_text
        meta_title slug portal_name).title = title) ∧
    (d.find? (fun kv => kv.1 == "short_description") = none →
      (generate_variation_with_gpt loads (.output t) title short_desc desc prompt_text
        meta_title slug portal_name).short_description = short_desc) ∧
    (d.find? (fun kv => kv.1 == "description") = none →
      (generate_variation_with_gpt loads (.output t) title short_desc desc prompt_text
        meta_title slug portal_name).description = desc) ∧
    (d.find? (fun kv => kv.1 == "meta_title") = none →
      (generate_variation_with_gpt loads (.output t) title short_desc desc prompt_text
        meta_title slug portal_name).meta_title = pyOrStr meta_title title) ∧
    (d.find? (fun kv => kv.1 == "slug") = none →
      (generate_variation_with_gpt loads (.output t) title short_desc desc prompt_text
        meta_title slug portal_name).slug
        = pyOrStr slug (slugify (pyOrStr meta_title title))) := by
  have he : generate_variation_with_gpt loads (.output t) title short_desc desc prompt_text
      meta_title slug portal_name = variantOfDict d title short_desc desc meta_title slug := by
    simp only [generate_variation_with_gpt, h]
  refine ⟨he, ?_, ?_, ?_, ?_, ?_⟩ <;> intro hk <;> rw [he] <;>
    simp [variantOfDict, dictGet, hk]

/-- Witness for C10: an object holding only a rewritten title keeps the
other four fields at their input defaults. -/
theorem c10_missing_keys_default_per_field_witness :
    ((fun _ : String => some [("title", "Rewritten")]) (pyStrip "x")
      = some [("title", "Rewritten")]) ∧
    (generate_variation_with_gpt (fun _ => some [("title", "Rewritten")]) (.output "x")
        "Original Title" "Short" "Body" "prompt" (some "My Meta") none (some "PortalA")).short_description
      = "Short" :=
  ⟨rfl,
    (c10_missing_keys_default_per_field (fun _ => some [("title", "Rewritten")]) "x"
      [("title", "Rewritten")] "Original Title" "Short" "Body" "prompt" (some "My Meta")
      none (some "PortalA") rfl).2.2.1 (by decide)⟩

theorem portalOfM_eq_of_pc (pcats : List PortalCategory) {a b : Mapping}
    (h : a.portal_category = b.portal_category) :
    portalOfM pcats a = portalOfM pcats b := by
  unfold portalOfM
  rw [h]

theorem mapping_eq_of_id (db : List Mapping) (hnd : mapIdsNodup db) {a b : Mapping}
    (ha : a ∈ db) (hb : b ∈ db) (h : a.id = b.id) : a = b :=
  List.inj_on_of_nodup_map hnd ha hb h

theorem ids_map_eq (db : List Mapping) (f : Mapping → Mapping)
    (hid : ∀ r ∈ db, (f r).id = r.id) :
    (db.map f).map (fun m => m.id) = db.map (fun m => m.id) := by
  induction db with
  | nil => rfl
  | cons r rs ih =>
    simp only [List.map_cons]
    rw [hid r (List.mem_cons_self r rs)]
    congr 1
    exact ih (fun x hx => hid x (List.mem_cons_of_mem r hx))

theorem mapIdsNodup_map (db : List Mapping) (f : Mapping → Mapping)
    (hid : ∀ r ∈ db, (f r).id = r.id) (h : mapIdsNodup db) :
    mapIdsNodup (db.map f) := by
  show ((db.map f).map (fun m => m.id)).Nodup
  rw [ids_map_eq db f hid]
  exact h

theorem maxMapId_ge (db : List Mapping) : ∀ m ∈ db, m.id ≤ maxMapId db := by
  induction db with
  | nil => intro m hm; cases hm
  | cons r rs ih =>
    intro m hm
    rcases List.mem_cons.1 hm with rfl | hm2
    · exact Nat.le_max_left _ _
    · exact Nat.le_trans (ih m hm2) (Nat.le_max_right _ _)

theorem fresh_id_not_mem (db : List Mapping) :
    (maxMapId db + 1) ∉ db.map (fun m => m.id) := by
  intro h
  obtain ⟨m, hm, he⟩ := List.mem_map.1 h
  have := maxMapId_ge db m hm
  omega

theorem mapIdsNodup_append_fresh (db : List Mapping) (newM : Mapping)
    (hnew : newM.id = maxMapId db + 1) (h : mapIdsNodup db) :
    mapIdsNodup (db ++ [newM]) := by
  show ((db ++ [newM]).map (fun m => m.id)).Nodup
  rw [List.map_append]
  refine List.Nodup.append h (by simp) ?_
  intro a ha hb
  simp only [List.map_cons, List.map_nil, List.mem_singleton] at hb
  rw [hb, hnew] at ha
  exact fresh_id_not_mem db ha

theorem atMostOneDefault_append (pcats : List PortalCategory) (db : List Mapping)
    (m : Mapping) (hm : m.is_default = false ∨ portalOfM pcats m = none)
    (hinv : atMostOneDefault pcats db) : atMostOneDefault pcats (db ++ [m]) := by
  intro m1 hm1 m2 hm2 h1 h2 hpp hnn
  rcases List.mem_append.1 hm1 with hm1d | hm1s
  · rcases List.mem_append.1 hm2 with hm2d | hm2s
    · exact hinv m1 hm1d m2 hm2d h1 h2 hpp hnn
    · have he : m2 = m := by simpa using hm2s
      subst he
      rcases hm with hf | hp
      · rw [hf] at h2; cases h2
      · exact absurd (hpp.trans hp) hnn
  · have he : m1 = m := by simpa using hm1s
    subst he
    rcases hm with hf | hp
    · rw [hf] at h1; cases h1
    · exact absurd hp hnn

theorem atMostOneDefault_map_mono (pcats : List PortalCategory) (db : List Mapping)
    (f : Mapping → Mapping)
    (hid : ∀ r ∈ db, (f r).id = r.id)
    (hportal : ∀ r ∈ db, portalOfM pcats (f r) = portalOfM pcats r)
    (hdef : ∀ r ∈ db, (f r).is_default = true → portalOfM pcats (f r) ≠ none →
      r.is_default = true)
    (hinv : atMostOneDefault pcats db) : atMostOneDefault pcats (db.map f) := by
  intro m1 hm1 m2 hm2 h1 h2 hpp hnn
  obtain ⟨r1, hr1, rfl⟩ := List.mem_map.1 hm1
  obtain ⟨r2, hr2, rfl⟩ := List.mem_map.1 hm2
  have d1 := hdef r1 hr1 h1 hnn
  have d2 := hdef r2 hr2 h2 (by rw [← hpp]; exact hnn)
  have hq : portalOfM pcats r1 = portalOfM pcats r2 := by
    rw [← hportal r1 hr1, ← hportal r2 hr2]
    exact hpp
  have hn : portalOfM pcats r1 ≠ none := by
    rw [← hportal r1 hr1]
    exact hnn
  rw [hid r1 hr1, hid r2 hr2]
  exact hinv r1 hr1 r2 hr2 d1 d2 hq hn

theorem atMostOneDefault_map_clear (pcats : List PortalCategory) (db : List Mapping)
    (f : Mapping → Mapping) (pid keep : Nat)
    (hid : ∀ r ∈ db, (f r).id = r.id)
    (hportal : ∀ r ∈ db, portalOfM pcats (f r) = portalOfM pcats r)
    (hsp : ∀ r ∈ db, (f r).is_default = true → portalOfM pcats (f r) ≠ some pid →
      portalOfM pcats (f r) ≠ none → r.is_default = true)
    (hpid : ∀ r ∈ db, (f r).is_default = true → portalOfM pcats (f r) = some pid →
      (f r).id = keep)
    (hbase : ∀ a ∈ db, ∀ b ∈ db, a.is_default = true → b.is_default = true →
      portalOfM pcats a = portalOfM pcats b → portalOfM pcats a ≠ none →
      portalOfM pcats a ≠ some pid → a.id = b.id) :
    atMostOneDefault pcats (db.map f) := by
  intro m1 hm1 m2 hm2 h1 h2 hpp hnn
  obtain ⟨r1, hr1, rfl⟩ := List.mem_map.1 hm1
  obtain ⟨r2, hr2, rfl⟩ := List.mem_map.1 hm2
  by_cases hq : portalOfM pcats (f r1) = some pid
  · rw [hpid r1 hr1 h1 hq, hpid r2 hr2 h2 (by rw [← hpp]; exact hq)]
  · have d1 := hsp r1 hr1 h1 hq hnn
    have d2 := hsp r2 hr2 h2 (by rw [← hpp]; exact hq) (by rw [← hpp]; exact hnn)
    rw [hid r1 hr1, hid r2 hr2]
    refine hbase r1 hr1 r2 hr2 d1 d2 ?_ ?_ ?_
    · rw [← hportal r1 hr1, ← hportal r2 hr2]
      exact hpp
    · rw [← hportal r1 hr1]
      exact hnn
    · rw [← hportal r1 hr1]
      exact hq

theorem inv_map_setRow (pcats : List PortalCategory) (db : List Mapping) (keep : Nat)
    (m2 : Mapping)
    (hnd : mapIdsNodup db) (hamo : atMostOneDefault pcats db)
    (h2id : m2.id = keep)
    (hrow : ∀ r ∈ db, r.id = keep → portalOfM pcats m2 = portalOfM pcats r ∧
      (m2.is_default = true → portalOfM pcats m2 ≠ none → r.is_default = true)) :
    MappingInv pcats (db.map (fun r => if r.id = keep then m2 else r)) := by
  have hid : ∀ r ∈ db, ((fun r => if r.id = keep then m2 else r) r).id = r.id := by
    intro r hr
    by_cases hrr : r.id = keep
    · simp [hrr, h2id]
    · simp [hrr]
  refine ⟨mapIdsNodup_map db _ hid hnd, ?_⟩
  refine atMostOneDefault_map_mono pcats db _ hid ?_ ?_ hamo
  · intro r hr
    by_cases hrr : r.id = keep
    · simp only [hrr, if_pos rfl]
      exact (hrow r hr hrr).1
    · simp [hrr]
  · intro r hr hd hn
    by_cases hrr : r.id = keep
    · simp only [hrr, if_pos rfl] at hd hn
      exact (hrow r hr hrr).2 hd hn
    · simpa [hrr] using hd

theorem inv_map_upsertDefaultClear (pcats : List PortalCategory) (db : List Mapping)
    (keep : Nat) (m2 : Mapping) (pid : Nat)
    (hnd : mapIdsNodup db)
    (h2id : m2.id = keep)
    (h2portal : portalOfM pcats m2 = some pid)
    (hkeep : ∀ r ∈ db, r.id = keep → portalOfM pcats r = some pid)
    (hbase : ∀ a ∈ db, ∀ b ∈ db, a.is_default = true → b.is_default = true →
      portalOfM pcats a = portalOfM pcats b → portalOfM pcats a ≠ none →
      portalOfM pcats a ≠ some pid → a.id = b.id) :
    MappingInv pcats (db.map (upsertDefaultClear pcats keep m2 pid)) := by
  have hid : ∀ r ∈ db, (upsertDefaultClear pcats keep m2 pid r).id = r.id := by
    intro r hr
    unfold upsertDefaultClear
    by_cases hrr : r.id = keep
    · simp [hrr, h2id]
    · by_cases hq : portalOfM pcats r = some pid <;> simp [hrr, hq]
  have hportal : ∀ r ∈ db,
      portalOfM pcats (upsertDefaultClear pcats keep m2 pid r) = portalOfM pcats r := by
    intro r hr
    unfold upsertDefaultClear
    by_cases hrr : r.id = keep
    · rw [if_pos hrr, h2portal, hkeep r hr hrr]
    · by_cases hq : portalOfM pcats r = some pid
      · rw [if_neg hrr, if_pos hq]
        exact portalOfM_eq_of_pc pcats rfl
      · rw [if_neg hrr, if_neg hq]
  refine ⟨mapIdsNodup_map db _ hid hnd, ?_⟩
  refine atMostOneDefault_map_clear pcats db _ pid keep hid hportal ?_ ?_ hbase
  · intro r hr hd hq hn
    by_cases hrr : r.id = keep
    · exact absurd ((hportal r hr).trans (hkeep r hr hrr)) hq
    · by_cases hqq : portalOfM pcats r = some pid
      · have : upsertDefaultClear pcats keep m2 pid r = { r with is_default := false } := by
          unfold upsertDefaultClear
          rw [if_neg hrr, if_pos hqq]
        rw [this] at hd
        cases hd
      · have : upsertDefaultClear pcats keep m2 pid r = r := by
          unfold upsertDefaultClear
          rw [if_neg hrr, if_neg hqq]
        rw [this] at hd
        exact hd
  · intro r hr hd hq
    by_cases hrr : r.id = keep
    · rw [hid r hr, hrr]
    · rw [hportal r hr] at hq
      have : upsertDefaultClear pcats keep m2 pid r = { r with is_default := false } := by
        unfold upsertDefaultClear
        rw [if_neg hrr, if_pos hq]
      rw [this] at hd
      cases hd

theorem inv_append_clear (pcats : List PortalCategory) (db : List Mapping)
    (newM : Mapping) (pid : Nat)
    (hnewid : newM.id = maxMapId db + 1)
    (hportal : portalOfM pcats newM = some pid)
    (hnd : mapIdsNodup db) (hamo : atMostOneDefault pcats db) :
    MappingInv pcats (clearSiblings pcats (db ++ [newM]) newM.id (some pid)) := by
  have hnd1 : mapIdsNodup (db ++ [newM]) := mapIdsNodup_append_fresh db newM hnewid hnd
  show MappingInv pcats ((db ++ [newM]).map (fun r =>
    if r.id ≠ newM.id ∧ portalOfM pcats r = some pid then { r with is_default := false }
    else r))
  have hcong : ∀ r ∈ db ++ [newM], (fun r =>
      if r.id ≠ newM.id ∧ portalOfM pcats r = some pid then { r with is_default := false }
      else r) r = upsertDefaultClear pcats newM.id newM pid r := by
    intro r hr
    simp only [upsertDefaultClear]
    rcases List.mem_append.1 hr with hrd | hrs
    · have hle := maxMapId_ge db r hrd
      have hne : r.id ≠ newM.id := by omega
      by_cases hq : portalOfM pcats r = some pid
      · rw [if_pos ⟨hne, hq⟩, if_neg hne, if_pos hq]
      · rw [if_neg (by tauto), if_neg hne, if_neg hq]
    · have he : r = newM := by simpa using hrs
      subst he
      rw [if_neg (by simp), if_pos rfl]
  rw [List.map_congr_left hcong]
  refine inv_map_upsertDefaultClear pcats (db ++ [newM]) newM.id newM pid hnd1 rfl hportal
    ?_ ?_
  · intro r hr hrk
    rcases List.mem_append.1 hr with hrd | hrs
    · have hle := maxMapId_ge db r hrd
      exact absurd hrk (by omega)
    · have he : r = newM := by simpa using hrs
      subst he
      exact hportal
  · intro a ha b hb h1 h2 h3 h4 h5
    rcases List.mem_append.1 ha with had | has
    · rcases List.mem_append.1 hb with hbd | hbs
      · exact hamo a had b hbd h1 h2 h3 h4
      · have he : b = newM := by simpa using hbs
        subst he
        exact absurd (h3.trans hportal) h5
    · have he : a = newM := by simpa using has
      subst he
      exact absurd hportal h5

theorem patchMapping_inv (pcats : List PortalCategory) (db : List Mapping) (pk : Nat)
    (udc isDef : Option Bool) (h : MappingInv pcats db) :
    MappingInv pcats (patchMapping pcats db pk udc isDef) := by
  obtain ⟨hnd, hamo⟩ := h
  unfold patchMapping
  cases hf : db.find? (fun m => m.id == pk) with
  | none => exact ⟨hnd, hamo⟩
  | some m =>
    have hm_mem : m ∈ db := List.mem_of_find?_eq_some hf
    have hm_id : m.id = pk := by
      have h1 := List.find?_some hf
      simpa using h1
    have core_nondef : ∀ m2 : Mapping, m2.id = pk → m2.portal_category = m.portal_category →
        (m2.is_default = true → portalOfM pcats m2 ≠ none → m.is_default = true) →
        MappingInv pcats (db.map (fun r => if r.id = pk then m2 else r)) := by
      intro m2 h2id h2pc h2def
      refine inv_map_setRow pcats db pk m2 hnd hamo h2id ?_
      intro r hr hrk
      have hrm : r = m := mapping_eq_of_id db hnd hr hm_mem (hrk.trans hm_id.symm)
      subst hrm
      exact ⟨portalOfM_eq_of_pc pcats h2pc, h2def⟩
    have core_def : ∀ m2 : Mapping, ∀ pid : Nat, m2.id = pk →
        m2.portal_category = m.portal_category → portalOfM pcats m = some pid →
        MappingInv pcats ((clearSiblings pcats db pk (some pid)).map
          (fun r => if r.id = pk then m2 else r)) := by
      intro m2 pid h2id h2pc hp
      show MappingInv pcats ((db.map (fun r =>
        if r.id ≠ pk ∧ portalOfM pcats r = some pid then { r with is_default := false }
        else r)).map (fun r => if r.id = pk then m2 else r))
      rw [List.map_map]
      have hcong : ∀ r ∈ db, ((fun r => if r.id = pk then m2 else r) ∘ (fun r =>
          if r.id ≠ pk ∧ portalOfM pcats r = some pid then { r with is_default := false }
          else r)) r = upsertDefaultClear pcats pk m2 pid r := by
        intro r hr
        by_cases hrr : r.id = pk
        · simp [Function.comp, upsertDefaultClear, hrr]
        · by_cases hq : portalOfM pcats r = some pid
          · simp [Function.comp, upsertDefaultClear, hrr, hq]
          · simp [Function.comp, upsertDefaultClear, hrr, hq]
      rw [List.map_congr_left hcong]
      refine inv_map_upsertDefaultClear pcats db pk m2 pid hnd h2id
        ((portalOfM_eq_of_pc pcats h2pc).trans hp) ?_ ?_
      · intro r hr hrk
        have hrm : r = m := mapping_eq_of_id db hnd hr hm_mem (hrk.trans hm_id.symm)
        rw [hrm]
        exact hp
      · intro a ha b hb h1 h2 h3 h4 _
        exact hamo a ha b hb h1 h2 h3 h4
    rcases isDef with _ | b
    · cases udc with
      | none => exact core_nondef m hm_id rfl (fun hd _ => hd)
      | some b' =>
        exact core_nondef { m with use_default_content := b' } hm_id rfl (fun hd _ => hd)
    · rcases b with _ | _
      · cases udc with
        | none =>
          exact core_nondef { m with is_default := false } hm_id rfl
            (fun hd _ => Bool.noConfusion hd)
        | some b' =>
          exact core_nondef { m with use_default_content := b', is_default := false }
            hm_id rfl (fun hd _ => Bool.noConfusion hd)
      · cases udc with
        | none =>
          show MappingInv pcats ((clearSiblings pcats db pk (portalOfM pcats m)).map
            (fun r => if r.id = pk then { m with is_default := true } else r))
          cases hp : portalOfM pcats m with
          | none =>
            exact core_nondef { m with is_default := true } hm_id rfl
              (fun _ hn => absurd ((portalOfM_eq_of_pc pcats rfl).trans hp) hn)
          | some pid => exact core_def { m with is_default := true } pid hm_id rfl hp
        | some b' =>
          show MappingInv pcats ((clearSiblings pcats db pk (portalOfM pcats m)).map
            (fun r =>
              if r.id = pk then { m with use_default_content := b', is_default := true }
              else r))
          cases hp : portalOfM pcats m with
          | none =>
            exact core_nondef { m with use_default_content := b', is_default := true }
              hm_id rfl (fun _ hn => absurd ((portalOfM_eq_of_pc pcats rfl).trans hp) hn)
          | some pid =>
            exact core_def { m with use_default_content := b', is_default := true } pid
              hm_id rfl hp

theorem createOrUpdateMapping_inv (pcats : List PortalCategory) (db : List Mapping)
    (mcId pcId : Nat) (udc isDef : Bool) (h : MappingInv pcats db) :
    MappingInv pcats (createOrUpdateMapping pcats db mcId pcId udc isDef) := by
  obtain ⟨hnd, hamo⟩ := h
  unfold createOrUpdateMapping
  cases hf : db.find? (fun m => m.master_category == mcId && m.portal_category == pcId) with
  | none =>
    rcases isDef with _ | _
    · exact ⟨mapIdsNodup_append_fresh db _ rfl hnd,
        atMostOneDefault_append pcats db _ (Or.inl rfl) hamo⟩
    · cases hp : portalOfPc pcats pcId with
      | none =>
        exact ⟨mapIdsNodup_append_fresh db _ rfl hnd,
          atMostOneDefault_append pcats db _ (Or.inr hp) hamo⟩
      | some pid => exact inv_append_clear pcats db _ pid rfl hp hnd hamo
  | some m =>
    have hm_mem : m ∈ db := List.mem_of_find?_eq_some hf
    have hm_keys : m.master_category = mcId ∧ m.portal_category = pcId := by
      have h1 := List.find?_some hf
      simpa using h1
    have core_nondef : ∀ m2 : Mapping, m2.id = m.id →
        m2.portal_category = m.portal_category →
        (m2.is_default = true → portalOfM pcats m2 ≠ none → m.is_default = true) →
        MappingInv pcats (db.map (fun r => if r.id = m.id then m2 else r)) := by
      intro m2 h2id h2pc h2def
      refine inv_map_setRow pcats db m.id m2 hnd hamo h2id ?_
      intro r hr hrk
      have hrm : r = m := mapping_eq_of_id db hnd hr hm_mem hrk
      subst hrm
      exact ⟨portalOfM_eq_of_pc pcats h2pc, h2def⟩
    rcases isDef with _ | _
    · exact core_nondef { m with use_default_content := udc, is_default := false } rfl rfl
        (fun hd _ => Bool.noConfusion hd)
    · cases hp : portalOfPc pcats pcId with
      | none =>
        refine core_nondef { m with use_default_content := udc, is_default := true } rfl rfl
          (fun _ hn => absurd ?_ hn)
        show portalOfPc pcats m.portal_category = none
        rw [hm_keys.2]
        exact hp
      | some pid =>
        show MappingInv pcats ((db.map (fun r =>
          if r.id = m.id then { m with use_default_content := udc, is_default := true }
          else r)).map (fun r =>
          if r.id ≠ m.id ∧ portalOfM pcats r = some pid then { r with is_default := false }
          else r))
        rw [List.map_map]
        have hcong : ∀ r ∈ db, ((fun r =>
            if r.id ≠ m.id ∧ portalOfM pcats r = some pid then { r with is_default := false }
            else r) ∘ (fun r =>
            if r.id = m.id then { m with use_default_content := udc, is_default := true }
            else r)) r = upsertDefaultClear pcats m.id
              { m with use_default_content := udc, is_default := true } pid r := by
          intro r hr
          by_cases hrr : r.id = m.id
          · simp [Function.comp, upsertDefaultClear, hrr]
          · by_cases hq : portalOfM pcats r = some pid
            · simp [Function.comp, upsertDefaultClear, hrr, hq]
            · simp [Function.comp, upsertDefaultClear, hrr, hq]
        rw [List.map_congr_left hcong]
        have h2portal : portalOfM pcats
            ({ m with use_default_content := udc, is_default := true } : Mapping)
            = some pid := by
          show portalOfPc pcats m.portal_category = some pid
          rw [hm_keys.2]
          exact hp
        refine inv_map_upsertDefaultClear pcats db m.id
          { m with use_default_content := udc, is_default := true } pid hnd rfl h2portal
          ?_ ?_
        · intro r hr hrk
          have hrm : r = m := mapping_eq_of_id db hnd hr hm_mem hrk
          subst hrm
          show portalOfPc pcats r.portal_category = some pid
          rw [hm_keys.2]
          exact hp
        · intro a ha b hb h1 h2 h3 h4 _
          exact hamo a ha b hb h1 h2 h3 h4

theorem applyMapOp_inv (pcats : List PortalCategory) (db : List Mapping) (op : MapOp)
    (h : MappingInv pcats db) : MappingInv pcats (applyMapOp pcats db op) := by
  cases op with
  | patch pk udc isDef => exact patchMapping_inv pcats db pk udc isDef h
  | createOrUpdate mcId pcId udc isDef =>
    exact createOrUpdateMapping_inv pcats db mcId pcId udc isDef h

theorem applyMapOps_inv (pcats : List PortalCategory) (ops : List MapOp) (db : List Mapping)
    (h : MappingInv pcats db) : MappingInv pcats (applyMapOps pcats ops db) := by
  induction ops generalizing db with
  | nil => simpa [applyMapOps] using h
  | cons op rest ih =>
    simp only [applyMapOps, List.foldl_cons]
    exact ih (applyMapOp pcats db op) (applyMapOp_inv pcats db op h)

theorem patchMapping_clears_siblings (pcats : List PortalCategory) (db : List Mapping)
    (pk : Nat) (udc : Option Bool) (m : Mapping) (pid : Nat)
    (hf : db.find? (fun x => x.id == pk) = some m)
    (hp : portalOfM pcats m = some pid) :
    ∀ r ∈ patchMapping pcats db pk udc (some true), r.id ≠ pk →
      portalOfM pcats r = some pid → r.is_default = false := by
  have hm_id : m.id = pk := by
    have h1 := List.find?_some hf
    simpa using h1
  obtain ⟨m2, heq, h2id⟩ : ∃ m2 : Mapping,
      patchMapping pcats db pk udc (some true)
        = (clearSiblings pcats db pk (portalOfM pcats m)).map
            (fun r => if r.id = pk then m2 else r) ∧ m2.id = pk := by
    cases udc with
    | none =>
      exact ⟨{ m with is_default := true }, by unfold patchMapping; rw [hf]; rfl, hm_id⟩
    | some b' =>
      exact ⟨{ m with use_default_content := b', is_default := true },
        by unfold patchMapping; rw [hf]; rfl, hm_id⟩
  intro r hr hne hq
  rw [heq, hp] at hr
  simp only [clearSiblings] at hr
  obtain ⟨r1, hr1, rfl⟩ := List.mem_map.1 hr
  obtain ⟨r0, hr0, rfl⟩ := List.mem_map.1 hr1
  by_cases hid0 : r0.id = pk
  · exact absurd (by simp [hid0, h2id]) hne
  · by_cases hq0 : portalOfM pcats r0 = some pid
    · simp [hid0, hq0]
    · simp [hid0, hq0] at hq

/-- C5: at most one CategoryMapping per portal has is_default at any time:
the table invariant (distinct primary keys, at most one flagged mapping per
portal) is preserved by any sequence of mapping operations (PATCH updates
and bulk-create iterations), and a PATCH that sets is_default on a mapping
clears the flag on every sibling mapping resolving to the same portal. -/
theorem c5_at_most_one_default_per_portal (pcats : List PortalCategory)
    (ops : List MapOp) (db : List Mapping) (h : MappingInv pcats db) :
    MappingInv pcats (applyMapOps pcats ops db) ∧
    atMostOneDefault pcats (applyMapOps pcats ops db) ∧
    (∀ pk udc m pid, db.find? (fun x => x.id == pk) = some m →
      portalOfM pcats m = some pid →
      ∀ r ∈ patchMapping pcats db pk udc (some true), r.id ≠ pk →
        portalOfM pcats r = some pid → r.is_default = false) := by
  have hinv := applyMapOps_inv pcats ops db h
  exact ⟨hinv, hinv.2, fun pk udc m pid hf hp =>
    patchMapping_clears_siblings pcats db pk udc m pid hf hp⟩

/-- Witness for C5: the two sample mappings under a set-default on portal
A's mapping, a bulk-create update flagging portal B's mapping, and a second
set-default patch. -/
theorem c5_at_most_one_default_per_portal_witness :
    MappingInv [samplePcA, samplePcB] [sampleMapA, sampleMapB] ∧
    atMostOneDefault [samplePcA, samplePcB]
      (applyMapOps [samplePcA, samplePcB]
        [.patch 21 none (some true), .createOrUpdate 1 12 false true,
         .patch 22 (some true) (some true)]
        [sampleMapA, sampleMapB]) :=
  ⟨by decide,
    (c5_at_most_one_default_per_portal [samplePcA, samplePcB]
      [.patch 21 none (some true), .createOrUpdate 1 12 false true,
       .patch 22 (some true) (some true)]
      [sampleMapA, sampleMapB] (by decide)).2.1⟩

end Recon
